import Mathlib

/-!
Verification of the climate-downscaling core of the GenHack4 backend.

This file shallowly embeds the data model and operations of
`genhack/src/data_preparation.py`, `genhack/src/modeling.py` and
`genhack/src/inference.py`:

* Python floats are modelled as `FVal` (`nan` or an exact rational);
  arithmetic propagates `nan` exactly as IEEE NaN does for the operations
  the code uses (addition and subtraction with a non-NaN constant).
* Python strings are handled through their character lists; `pyStrip`,
  `splitOnChar` and `occursIn` model `str.strip`, `str.split(c)` and the
  `in` substring test.
* External libraries (xarray, rasterio, pyproj, sklearn) appear as
  abstract environments: a netCDF archive is a function from a query to
  an optional value (`none` meaning a raised exception), a raster is a
  record of dimensions plus a pixel-read function, the fitted regressor
  is an opaque function from a feature vector to a rational.
* Loops that append to a Python list are embedded as `List.foldl` over
  an accumulator and related to `List.filterMap` by a lemma.
-/

/-- A Python float restricted to the values the pipeline manipulates:
either NaN (the "missing" sentinel) or an exact rational number. -/
inductive FVal where
  | nan : FVal
  | num : ℚ → FVal
deriving DecidableEq, Repr

namespace FVal

/-- Addition with NaN propagation. -/
def add : FVal → FVal → FVal
  | num a, num b => num (a + b)
  | _, _ => nan

/-- Subtraction with NaN propagation. -/
def sub : FVal → FVal → FVal
  | num a, num b => num (a - b)
  | _, _ => nan

instance : Add FVal := ⟨add⟩
instance : Sub FVal := ⟨sub⟩

/-- `np.isnan`. -/
def isNan : FVal → Bool
  | nan => true
  | num _ => false

@[simp] theorem isNan_nan : isNan nan = true := rfl

@[simp] theorem isNan_num (q : ℚ) : isNan (num q) = false := rfl

@[simp] theorem num_add_num (a b : ℚ) : num a + num b = num (a + b) := rfl

@[simp] theorem num_sub_num (a b : ℚ) : num a - num b = num (a - b) := rfl

@[simp] theorem nan_sub (x : FVal) : nan - x = nan := rfl

end FVal

/-! ## String helpers (models of Python's `str` methods) -/

/-- Python `str.strip()`: drop whitespace from both ends. -/
def pyStrip (s : String) : String :=
  String.mk (((s.data.dropWhile Char.isWhitespace).reverse.dropWhile
    Char.isWhitespace).reverse)

/-- Python `str.split(sep)` for a one-character separator, on char lists.
`splitOnChar c []` is `[[]]` because `"".split(c) == [""]`. -/
def splitOnChar (sep : Char) : List Char → List (List Char)
  | [] => [[]]
  | c :: cs =>
    let r := splitOnChar sep cs
    if c = sep then [] :: r
    else
      match r with
      | [] => [[c]]
      | h :: t => (c :: h) :: t

/-- Does `p` occur at the start of `l`? -/
def startsWith : List Char → List Char → Bool
  | [], _ => true
  | _ :: _, [] => false
  | p :: ps, c :: cs => p = c && startsWith ps cs

/-- Python's substring test `pat in s`, on char lists. -/
def occursIn (pat : List Char) : List Char → Bool
  | [] => startsWith pat []
  | c :: cs => startsWith pat (c :: cs) || occursIn pat cs

/-- Value of a list of decimal digit characters. -/
def digitsToNat (cs : List Char) : ℕ :=
  cs.foldl (fun n c => n * 10 + (c.toNat - 48)) 0

/-- Parse an unsigned decimal numeral, optionally with a fractional part,
as Python `float` does on such strings; `none` models a raised
`ValueError`. -/
def parseUnsigned (cs : List Char) : Option ℚ :=
  match cs.span Char.isDigit with
  | (ds, []) => if ds.isEmpty then none else some (digitsToNat ds)
  | (ds, c :: fs) =>
    if c = '.' && fs.all Char.isDigit && !(ds.isEmpty && fs.isEmpty) then
      some ((digitsToNat ds : ℚ) + (digitsToNat fs : ℚ) / (10 : ℚ) ^ fs.length)
    else none

/-- Python `float(s)` on the numeral fragment the catalogues use
(optionally signed decimal numerals); `none` models `ValueError`. -/
def parseFloatQ (cs0 : List Char) : Option ℚ :=
  match (pyStrip (String.mk cs0)).data with
  | '+' :: cs => parseUnsigned cs
  | '-' :: cs => (parseUnsigned cs).map (fun q => -q)
  | cs => parseUnsigned cs

/-- Python `int(s)`: optionally signed decimal integer; `none` models
`ValueError`. -/
def parseIntQ (cs0 : List Char) : Option Int :=
  match (pyStrip (String.mk cs0)).data with
  | '+' :: cs => if cs.isEmpty || !cs.all Char.isDigit then none
                 else some (digitsToNat cs : Int)
  | '-' :: cs => if cs.isEmpty || !cs.all Char.isDigit then none
                 else some (-(digitsToNat cs : Int))
  | cs => if cs.isEmpty || !cs.all Char.isDigit then none
          else some (digitsToNat cs : Int)

/-! ## StationMetadataParser (`data_preparation.py`) -/

/-- Parse the `d :: m :: s :: _` part list of a DMS string.  Mirrors the
Python use of `parts[0] / parts[1] / parts[2]`: extra parts are
ignored, fewer than three parts raise `IndexError` (`none`). -/
def dmsParts (ch : Char) : List (List Char) → Option ℚ
  | d :: m :: s :: _ =>
    match parseFloatQ d, parseFloatQ m, parseFloatQ s with
    | some dv, some mv, some sv =>
      some ((if ch = '+' then (1 : ℚ) else -1) * (dv + mv / 60 + sv / 3600))
    | _, _, _ => none
  | _ => none

/-- `StationMetadataParser.dms_to_decimal`.  Strips the input, reads the
sign from the first character (`'+'` gives `+1`, anything else `-1`),
drops that character, splits the rest on `':'` and combines
`sign * (deg + min/60 + sec/3600)`.  `none` models a raised exception
(empty string, missing parts, unparsable part). -/
def dms_to_decimal (s0 : String) : Option ℚ :=
  match (pyStrip s0).data with
  | [] => none
  | ch :: rest => dmsParts ch (splitOnChar ':' rest)

/-- `StationRecord`: one row of the parsed station catalogue. -/
structure StationRec where
  staid : Int
  staname : String
  cn : String
  lat_dec : ℚ
  lon_dec : ℚ
  elevation : Int
deriving DecidableEq, Repr

/-- The header marker `'STAID,STANAME' in line`. -/
def isHeaderLine (line : String) : Bool :=
  occursIn "STAID,STANAME".data line.data

/-- Index of the first data line: one past the first header line, or `0`
when no header line occurs (the Python `data_start` stays `0`). -/
def dataStart (lines : List String) : Nat :=
  match lines.findIdx? isHeaderLine with
  | some i => i + 1
  | none => 0

/-- Parse one catalogue line into a `StationRec`; `none` models both the
explicit `continue` branches (blank line, fewer than six fields) and a
caught `ValueError`/`IndexError` in the `try` block. -/
def parseStationLine (line : String) : Option StationRec :=
  let l := pyStrip line
  if l.data.isEmpty then none
  else
    match splitOnChar ',' l.data with
    | p0 :: p1 :: p2 :: p3 :: p4 :: p5 :: _ =>
      match parseIntQ p0, dms_to_decimal (String.mk p3),
            dms_to_decimal (String.mk p4), parseIntQ p5 with
      | some staid, some lat, some lon, some hght =>
        some { staid := staid, staname := pyStrip (String.mk p1),
               cn := pyStrip (String.mk p2), lat_dec := lat,
               lon_dec := lon, elevation := hght }
      | _, _, _, _ => none
    | _ => none

/-- The body shared by the Python `for`-loops that append to a result
list when a per-item computation succeeds and `continue` otherwise. -/
def appendStep (f : α → Option β) (acc : List β) (x : α) : List β :=
  match f x with
  | some r => acc ++ [r]
  | none => acc

/-- `StationMetadataParser.parse_stations`: skip to the line after the
header, then run the append-on-success loop over the remaining lines. -/
def parse_stations (lines : List String) : List StationRec :=
  (lines.drop (dataStart lines)).foldl (appendStep parseStationLine) []

/-! ## StationTemperatureLoader (`data_preparation.py`) -/

/-- One row of a per-station observation table.  `tx` is the temperature
reading (tenths of °C before cleaning, °C after); the `DATE` column is
carried opaquely as its `YYYYMMDD` string because `pd.to_datetime` does
not interact with the quality/missing filters. -/
structure RawObs where
  staid : Int
  date : String
  tx : ℚ
  q_tx : Int
deriving DecidableEq, Repr

/-- The quality filter `df[df['Q_TX'] == 0]`. -/
def filter_quality (df : List RawObs) : List RawObs :=
  df.filter (fun r => decide (r.q_tx = 0))

/-- The missing-sentinel filter `df[df['TX'] != -9999]`. -/
def filter_missing (df : List RawObs) : List RawObs :=
  df.filter (fun r => decide (r.tx ≠ -9999))

/-- `StationTemperatureLoader.clean_temperature_data`: quality filter,
missing filter, then unit conversion `TX / 10`. -/
def clean_temperature_data (df : List RawObs) : List RawObs :=
  if df.isEmpty then df
  else
    (filter_missing (filter_quality df)).map
      (fun r => { r with tx := r.tx / 10 })

/-! ## TrainingCubeBuilder (`data_preparation.py`) -/

/-- One cleaned observation row as consumed by
`TrainingCubeBuilder.build_training_cube` (after station metadata has
been joined on).  Dates are abstracted as integers (a day index: equal
integers mean equal days, `<` means earlier). -/
structure ObsRow where
  staid : Int
  date : Int
  lat : ℚ
  lon : ℚ
  elevation : ℚ
  tx : ℚ
deriving DecidableEq, Repr

/-- `TrainingExample`: one row of the training cube. -/
structure CubeRow where
  date : Int
  lat : ℚ
  lon : ℚ
  elevation : ℚ
  ndvi : ℚ
  era5_temp : ℚ
  station_temp : ℚ
  residual : ℚ
  staid : Int
  day_of_year : Int
deriving DecidableEq, Repr

/-- The body of the `build_training_cube` loop for one observation row:
look up baseline and covariate at (date, station location); if either is
NaN the row is dropped (`continue`), otherwise the training example is
built with `residual = station_temp - era5_temp`. -/
def cubeRowOf (getE getN : Int → ℚ → ℚ → FVal) (doyOf : Int → Int)
    (r : ObsRow) : Option CubeRow :=
  match getE r.date r.lat r.lon, getN r.date r.lat r.lon with
  | FVal.num e, FVal.num n =>
    some { date := r.date, lat := r.lat, lon := r.lon,
           elevation := r.elevation, ndvi := n, era5_temp := e,
           station_temp := r.tx, residual := r.tx - e,
           staid := r.staid, day_of_year := doyOf r.date }
  | _, _ => none

/-- `TrainingCubeBuilder.build_training_cube`: the append-on-success loop
over the observation rows.  `getE` and `getN` abstract the two lookup
services `get_era5_value` and `get_ndvi_value` (deterministic functions
of (date, lat, lon) for a fixed on-disk environment); `doyOf` abstracts
`date.dayofyear`. -/
def build_training_cube (getE getN : Int → ℚ → ℚ → FVal)
    (doyOf : Int → Int) (data : List ObsRow) : List CubeRow :=
  data.foldl (appendStep (cubeRowOf getE getN doyOf)) []

/-! ## Coarse-grid and covariate accessors (`data_preparation.py`) -/

/-- An opened ERA5 yearly archive: the nearest-point extraction
`ds.sel(latitude, longitude, valid_time).values` followed by
`float(...)`.  `none` models a raised exception (missing variable,
unindexable coordinates, ...); `some k` is the raw Kelvin value, which
may itself be NaN (a fill value in the file). -/
def Era5Dataset : Type := ℚ → ℚ → Int → Option FVal

/-- The state of one (year, variable) archive on disk. -/
inductive Era5File where
  | absent : Era5File
  | openError : Era5File
  | ok : Era5Dataset → Era5File

/-- The ERA5 directory: what `self.era5_dir / f"{year}_{variable}.nc"`
resolves to for each key.  The handle cache only memoises this mapping,
so a fixed environment makes the lookup a pure function. -/
structure Era5Env where
  files : Int → String → Era5File

/-- `TrainingCubeBuilder.get_era5_value`: missing file, open error or
extraction error give NaN; a successfully read Kelvin value is converted
to Celsius by subtracting 273.15 (NaN data propagates to NaN). -/
def get_era5_value (env : Era5Env) (yearOf : Int → Int) (date : Int)
    (lat lon : ℚ) (varName : String) : FVal :=
  match env.files (yearOf date) varName with
  | Era5File.absent => FVal.nan
  | Era5File.openError => FVal.nan
  | Era5File.ok ds =>
    match ds lat lon date with
    | none => FVal.nan
    | some k => k - FVal.num (5463 / 20)

/-- Result of `src.read(1, window=Window(col, row, 1, 1))` followed by
the `data.size == 0` check: an exception, an empty window, or the raw
byte value `float(data[0, 0])`. -/
inductive ReadRes where
  | err : ReadRes
  | empty : ReadRes
  | val : ℚ → ReadRes

/-- An opened NDVI raster.  `locate` abstracts the chain
`Transformer.transform` then `src.index` (query point to pixel row/col
in the raster's CRS); `none` models an exception in that chain. -/
structure NdviSrc where
  height : Int
  width : Int
  locate : ℚ → ℚ → Option (Int × Int)
  read : Int → Int → ReadRes

/-- One NDVI file as discovered by the filename glob, with its validity
window `[startD, endD)` parsed from the name; `handle` is `none` when
`rasterio.open` raises. -/
structure NdviFile where
  startD : Int
  endD : Int
  handle : Option NdviSrc

/-- The NDVI directory (files whose names fail to parse are already
excluded, as the Python loop skips them). -/
structure NdviEnv where
  files : List NdviFile

/-- `TrainingCubeBuilder.get_ndvi_value`: select the first file whose
window contains the date; any failure (no file, open error, transform
error, out-of-range pixel, empty read, 255 NoData) gives NaN; otherwise
the byte value is scaled linearly onto [-1, 1]. -/
def get_ndvi_value (env : NdviEnv) (date : Int) (lat lon : ℚ) : FVal :=
  match env.files.find? (fun f => decide (f.startD ≤ date ∧ date < f.endD)) with
  | none => FVal.nan
  | some f =>
    match f.handle with
    | none => FVal.nan
    | some src =>
      match src.locate lon lat with
      | none => FVal.nan
      | some (row, col) =>
        if 0 ≤ row ∧ row < src.height ∧ 0 ≤ col ∧ col < src.width then
          match src.read row col with
          | ReadRes.err => FVal.nan
          | ReadRes.empty => FVal.nan
          | ReadRes.val v =>
            if v = 255 then FVal.nan
            else FVal.num (v / 254 * 2 - 1)
        else FVal.nan

/-! ## SpatialCrossValidator (`modeling.py`) -/

/-- `pandas.Series.unique`: distinct values in order of first
occurrence, written with an explicit `seen` accumulator. -/
def uniqueFirst (seen : List Int) : List Int → List Int
  | [] => []
  | x :: xs =>
    if x ∈ seen then uniqueFirst seen xs
    else x :: uniqueFirst (x :: seen) xs

/-- `df['STAID'].unique()` over the training cube. -/
def uniqueStations (df : List CubeRow) : List Int :=
  uniqueFirst [] (df.map CubeRow.staid)

/-- `SpatialCrossValidator.spatial_split`.  `sklearn.train_test_split`
draws a seed-dependent permutation `shuffled` of the unique station ids
and slices it: the first `nTest` ids form the test group, the rest the
train group; a row lands in a partition iff its station id is in that
group.  The permutation is a parameter, so theorems quantifying over it
cover every random seed. -/
def spatial_split (df : List CubeRow) (shuffled : List Int) (nTest : ℕ) :
    List CubeRow × List CubeRow :=
  let test_stations := shuffled.take nTest
  let train_stations := shuffled.drop nTest
  (df.filter (fun r => decide (r.staid ∈ train_stations)),
   df.filter (fun r => decide (r.staid ∈ test_stations)))

/-! ## ResidualLearningModel (`modeling.py`) -/

/-- The fixed, ordered feature list hardcoded in
`ResidualLearningModel.prepare_features`. -/
def fixedFeatureNames : List String :=
  ["ERA5_Temp", "NDVI", "ELEVATION", "LAT", "LON", "DayOfYear"]

/-- A `ResidualLearningModel` instance: family tag, optional fitted
regressor (an opaque row-to-prediction function), optional stored
feature-name list. -/
structure RLModel where
  model_type : String
  model : Option (List ℚ → ℚ)
  feature_names : Option (List String)

/-- The persisted artifact written by `save` and read by `load`. -/
structure Artifact where
  model : List ℚ → ℚ
  feature_names : List String
  model_type : String

/-- `ResidualLearningModel.load`: restores model, feature ordering and
family tag exactly as stored, with no validation of any kind. -/
def RLModel.load (a : Artifact) : RLModel :=
  { model_type := a.model_type, model := some a.model,
    feature_names := some a.feature_names }

/-- A pandas DataFrame, as a map from column name to column values
(`none` = column absent). -/
structure DFrame where
  cols : String → Option (List ℚ)

/-- `df[names].values`: select the named columns and transpose to a list
of row vectors; `none` models the `KeyError` pandas raises when a column
is absent. -/
def selectCols (df : DFrame) (names : List String) : Option (List (List ℚ)) :=
  (names.mapM df.cols).map List.transpose

/-- `ResidualLearningModel.prepare_features`: unconditionally overwrites
`self.feature_names` with the hardcoded list, then selects those columns
as `X` and the `Residual` column (if present) as `y`.  The first
returned component is the mutated model instance. -/
def RLModel.prepare_features (m : RLModel) (df : DFrame) :
    RLModel × Option (List (List ℚ)) × Option (List ℚ) :=
  ({ m with feature_names := some fixedFeatureNames },
   selectCols df fixedFeatureNames,
   df.cols "Residual")

/-- `ResidualLearningModel.predict`: prepare features, then apply the
fitted regressor row by row.  `none` models an uncaught exception
(missing column, or no fitted model). -/
def RLModel.predict (m : RLModel) (df : DFrame) :
    RLModel × Option (List ℚ) :=
  match m.prepare_features df with
  | (m', some x, _) =>
    match m'.model with
    | some f => (m', some (x.map f))
    | none => (m', none)
  | (m', none, _) => (m', none)

/-! ## HighResMapGenerator (`inference.py`) -/

/-- `FeatureGridRow`: one row of the per-pixel feature table built by
`create_feature_grid`.  `era5` and `ndvi` keep their float (possibly
NaN) nature because the table is assembled before `dropna`. -/
structure FeatureRow where
  era5 : FVal
  ndvi : FVal
  elevation : ℚ
  lat : ℚ
  lon : ℚ
  doy : Int
  row : ℕ
  col : ℕ
deriving DecidableEq, Repr

/-- The row built for pixel (i, j): features from the two rasters, the
elevation array when one is supplied (`np.zeros` otherwise), coordinates
from the affine transform (`xs` are longitudes, `ys` latitudes), the
constant day-of-year, plus the pixel indices themselves. -/
def pixelRow (era5 ndvi : ℕ → ℕ → FVal) (tf : ℕ → ℕ → ℚ × ℚ)
    (doy : Int) (elev : Option (ℕ → ℕ → ℚ)) (i j : ℕ) : FeatureRow :=
  { era5 := era5 i j, ndvi := ndvi i j,
    elevation := match elev with
                 | some e => e i j
                 | none => 0,
    lat := (tf i j).2, lon := (tf i j).1,
    doy := doy, row := i, col := j }

/-- `HighResMapGenerator.create_feature_grid`: assemble one row per
pixel in row-major (`np.mgrid` ravel) order, then
`dropna(subset=['ERA5_Temp', 'NDVI'])`. -/
def create_feature_grid (era5 ndvi : ℕ → ℕ → FVal) (height width : ℕ)
    (tf : ℕ → ℕ → ℚ × ℚ) (doy : Int) (elev : Option (ℕ → ℕ → ℚ)) :
    List FeatureRow :=
  ((List.range height).flatMap (fun i =>
    (List.range width).map (fun j => pixelRow era5 ndvi tf doy elev i j))).filter
    (fun r => !r.era5.isNan && !r.ndvi.isNan)

/-- Numpy fancy assignment `arr[rows, cols] = vals` starting from an
array: entries are written in order, so a later entry at the same index
would win, matching numpy. -/
def scatter (init : ℕ → ℕ → FVal) : List (ℕ × ℕ × FVal) → ℕ → ℕ → FVal
  | [] => init
  | e :: rest =>
    scatter (fun a b => if a = e.1 ∧ b = e.2.1 then e.2.2 else init a b) rest

/-- The per-date inference environment: everything
`generate_highres_map` obtains from disk and from external libraries
before the grid/predict/reconstruct steps.  `era5up` is the bilinear
upsampling of the coarse array onto the fine grid (the output of
`upsample_era5_to_highres`), `ndvi` the loaded, scaled fine raster,
`tf` the affine transform of the fine grid, and `pred` the fitted
regressor applied to one feature vector, in the trained order
[baseline, vegetation index, elevation, lat, lon, day-of-year]. -/
structure InfEnv where
  height : ℕ
  width : ℕ
  era5up : ℕ → ℕ → FVal
  ndvi : ℕ → ℕ → FVal
  tf : ℕ → ℕ → ℚ × ℚ
  doy : Int
  pred : FVal → FVal → ℚ → ℚ → ℚ → Int → ℚ

/-- `model.predict` on one feature-grid row. -/
def predictRow (env : InfEnv) (r : FeatureRow) : ℚ :=
  env.pred r.era5 r.ndvi r.elevation r.lat r.lon r.doy

/-- The outcome of `generate_highres_map` for one date. -/
structure GenResult where
  grid : List FeatureRow
  residual_map : ℕ → ℕ → FVal
  highres_map : ℕ → ℕ → FVal

/-- `HighResMapGenerator.generate_highres_map`, from the point where the
rasters are in memory: build the feature grid (note: no elevation array
is ever passed), predict residuals, reconstruct
`highres = ERA5 + predicted residual` per surviving pixel, and scatter
both per-pixel series into NaN-initialised output arrays. -/
def generate_highres_map (env : InfEnv) : GenResult :=
  let grid := create_feature_grid env.era5up env.ndvi env.height env.width
    env.tf env.doy none
  { grid := grid,
    residual_map := scatter (fun _ _ => FVal.nan)
      (grid.map (fun r => (r.row, r.col, FVal.num (predictRow env r)))),
    highres_map := scatter (fun _ _ => FVal.nan)
      (grid.map (fun r => (r.row, r.col, r.era5 + FVal.num (predictRow env r)))) }

/-- `pd.date_range(start, end, freq='D')` over integer day indices:
every day from `s` to `e` inclusive (empty when `e < s`). -/
def dateRange (s e : Int) : List Int :=
  (List.range (e - s + 1).toNat).map (fun i => s + i)

/-- `generate_maps_for_period`'s date loop: each date's map generation
is attempted inside `try`; an exception is logged and the loop
continues.  `gen` abstracts one full `generate_highres_map` call
(`Except.error` = raised exception); the trace records, in order, each
attempted date and whether it succeeded.  `attemptDate` is one loop
iteration: the `try`/`except` around one date. -/
def attemptDate (gen : Int → Except String Unit) (d : Int) : Int × Bool :=
  (d, match gen d with
      | Except.ok _ => true
      | Except.error _ => false)

/-- The date loop itself: sequentially attempt every date. -/
def generate_maps_for_period (gen : Int → Except String Unit)
    (s e : Int) : List (Int × Bool) :=
  (dateRange s e).foldl (fun acc d => acc ++ [attemptDate gen d]) []

/-! ## Test fixtures (concrete inputs used by counterexamples and
witnesses) -/

def c6lines : List String :=
  ["STAID,STANAME,CN,LAT,LON,HGHT",
   " 1,AAA,SE,+56:52:00,+12:00:00,10",
   " 1,BBB,SE,+10:00:00,+20:00:00,5"]

def c7row : RawObs := { staid := 1, date := "20200101", tx := -99990, q_tx := 0 }

def c7df : List RawObs := [{ staid := 1, date := "20200101", tx := 250, q_tx := 0 }]

def mkCube (id : Int) : CubeRow :=
  { date := 0, lat := 0, lon := 0, elevation := 0, ndvi := 0,
    era5_temp := 0, station_temp := 0, residual := 0, staid := id,
    day_of_year := 0 }

def c2df : List CubeRow := [mkCube 1, mkCube 2, mkCube 3]

def c10obs : ObsRow :=
  { staid := 1, date := 5, lat := 2, lon := 3, elevation := 10, tx := 20 }

def badArtifact : Artifact :=
  { model := fun _ => 0, feature_names := ["WRONG"],
    model_type := "random_forest" }

def stdFrame : DFrame :=
  { cols := fun n => if fixedFeatureNames.contains n then some [1] else none }

/-! ## Helper lemmas -/

/-- The append-on-success loop computes `filterMap`. -/
theorem foldl_appendStep {α β : Type _} (f : α → Option β) :
    ∀ (l : List α) (acc : List β),
      l.foldl (appendStep f) acc = acc ++ l.filterMap f := by
  intro l
  induction l with
  | nil => intro acc; simp
  | cons x xs ih =>
    intro acc
    cases h : f x with
    | none => simp [List.foldl_cons, appendStep, h, ih, List.filterMap_cons]
    | some r => simp [List.foldl_cons, appendStep, h, ih, List.filterMap_cons]

theorem foldl_append_singleton {α β : Type _} (g : α → β) :
    ∀ (l : List α) (acc : List β),
      l.foldl (fun acc d => acc ++ [g d]) acc = acc ++ l.map g := by
  intro l
  induction l with
  | nil => intro acc; simp
  | cons x xs ih => intro acc; simp [ih]

theorem build_training_cube_eq_filterMap (getE getN : Int → ℚ → ℚ → FVal)
    (doyOf : Int → Int) (data : List ObsRow) :
    build_training_cube getE getN doyOf data
      = data.filterMap (cubeRowOf getE getN doyOf) := by
  unfold build_training_cube
  rw [foldl_appendStep]
  simp

theorem mem_build_training_cube {getE getN : Int → ℚ → ℚ → FVal}
    {doyOf : Int → Int} {data : List ObsRow} {c : CubeRow} :
    c ∈ build_training_cube getE getN doyOf data
      ↔ ∃ r ∈ data, cubeRowOf getE getN doyOf r = some c := by
  rw [build_training_cube_eq_filterMap]
  exact List.mem_filterMap

/-- Inverting one successful iteration of the cube-builder loop. -/
theorem cubeRowOf_some_inv {getE getN : Int → ℚ → ℚ → FVal}
    {doyOf : Int → Int} {r : ObsRow} {c : CubeRow}
    (h : cubeRowOf getE getN doyOf r = some c) :
    ∃ e n, getE r.date r.lat r.lon = FVal.num e
      ∧ getN r.date r.lat r.lon = FVal.num n
      ∧ c.date = r.date ∧ c.lat = r.lat ∧ c.lon = r.lon
      ∧ c.elevation = r.elevation ∧ c.ndvi = n ∧ c.era5_temp = e
      ∧ c.station_temp = r.tx ∧ c.residual = r.tx - e
      ∧ c.staid = r.staid ∧ c.day_of_year = doyOf r.date := by
  unfold cubeRowOf at h
  cases hE : getE r.date r.lat r.lon with
  | nan => rw [hE] at h; simp at h
  | num e =>
    cases hN : getN r.date r.lat r.lon with
    | nan => rw [hE, hN] at h; simp at h
    | num n =>
      rw [hE, hN] at h
      injection h with h2
      refine ⟨e, n, rfl, rfl, ?_⟩
      rw [← h2]
      exact ⟨rfl, rfl, rfl, rfl, rfl, rfl, rfl, rfl, rfl, rfl⟩

theorem mem_create_feature_grid {era5 ndvi : ℕ → ℕ → FVal}
    {height width : ℕ} {tf : ℕ → ℕ → ℚ × ℚ} {doy : Int}
    {elev : Option (ℕ → ℕ → ℚ)} {r : FeatureRow} :
    r ∈ create_feature_grid era5 ndvi height width tf doy elev
      ↔ (∃ i < height, ∃ j < width,
          r = pixelRow era5 ndvi tf doy elev i j)
        ∧ r.era5.isNan = false ∧ r.ndvi.isNan = false := by
  unfold create_feature_grid
  rw [List.mem_filter]
  constructor
  · rintro ⟨hbase, hval⟩
    obtain ⟨i, hi, hr⟩ := List.mem_flatMap.mp hbase
    obtain ⟨j, hj, hr2⟩ := List.mem_map.mp hr
    refine ⟨⟨i, List.mem_range.mp hi, j, List.mem_range.mp hj, hr2.symm⟩, ?_, ?_⟩
    · cases hnan : r.era5.isNan
      · rfl
      · rw [hnan] at hval; simp at hval
    · cases hnan : r.ndvi.isNan
      · rfl
      · rw [hnan] at hval; simp at hval
  · rintro ⟨⟨i, hi, j, hj, hr⟩, h1, h2⟩
    refine ⟨List.mem_flatMap.mpr ⟨i, List.mem_range.mpr hi,
      List.mem_map.mpr ⟨j, List.mem_range.mpr hj, hr.symm⟩⟩, ?_⟩
    rw [h1, h2]
    rfl

/-- A surviving feature-grid row reads its rasters at its own pixel. -/
theorem mem_create_feature_grid_fields {era5 ndvi : ℕ → ℕ → FVal}
    {height width : ℕ} {tf : ℕ → ℕ → ℚ × ℚ} {doy : Int}
    {elev : Option (ℕ → ℕ → ℚ)} {r : FeatureRow}
    (h : r ∈ create_feature_grid era5 ndvi height width tf doy elev) :
    r.era5 = era5 r.row r.col ∧ r.ndvi = ndvi r.row r.col
      ∧ r.era5.isNan = false ∧ r.ndvi.isNan = false := by
  obtain ⟨⟨i, _, j, _, hr⟩, h1, h2⟩ := mem_create_feature_grid.mp h
  subst hr
  exact ⟨rfl, rfl, h1, h2⟩

theorem scatter_not_mem (init : ℕ → ℕ → FVal)
    (l : List (ℕ × ℕ × FVal)) (i j : ℕ)
    (h : ∀ e ∈ l, ¬(i = e.1 ∧ j = e.2.1)) :
    scatter init l i j = init i j := by
  induction l generalizing init with
  | nil => rfl
  | cons e rest ih =>
    show scatter _ rest i j = init i j
    rw [ih _ (fun e' he' => h e' (List.mem_cons_of_mem _ he'))]
    exact if_neg (h e (List.mem_cons_self _ _))

theorem scatter_lookup (init : ℕ → ℕ → FVal)
    (l : List (ℕ × ℕ × FVal)) (i j : ℕ) (v : FVal)
    (hnd : (l.map (fun e => (e.1, e.2.1))).Nodup)
    (hmem : (i, j, v) ∈ l) :
    scatter init l i j = v := by
  induction l generalizing init with
  | nil => cases hmem
  | cons e rest ih =>
    obtain ⟨hkey, hnd'⟩ := List.nodup_cons.mp hnd
    show scatter _ rest i j = v
    rcases List.mem_cons.mp hmem with heq | hrest
    · have hnomem : ∀ e' ∈ rest, ¬(i = e'.1 ∧ j = e'.2.1) := by
        rintro e' he' ⟨h1, h2⟩
        apply hkey
        rw [← heq]
        exact List.mem_map.mpr ⟨e', he', by rw [← h1, ← h2]⟩
      rw [scatter_not_mem _ _ _ _ hnomem, ← heq]
      simp
    · exact ih _ hnd' hrest

theorem pairKeys_nodup (width : ℕ) :
    ∀ hs : List ℕ, hs.Nodup →
      (hs.flatMap (fun i => (List.range width).map (fun j => (i, j)))).Nodup := by
  intro hs
  induction hs with
  | nil => intro; simp
  | cons a rest ih =>
    intro hnd
    obtain ⟨ha, hnd'⟩ := List.nodup_cons.mp hnd
    rw [List.flatMap_cons, List.nodup_append]
    refine ⟨?_, ih hnd', ?_⟩
    · exact List.Nodup.map (fun x y h => (Prod.mk.injEq _ _ _ _).mp h |>.2)
        (List.nodup_range _)
    · intro p hp hq
      obtain ⟨j, _, hpj⟩ := List.mem_map.mp hp
      obtain ⟨i, hi, hr⟩ := List.mem_flatMap.mp hq
      obtain ⟨j', _, hpj'⟩ := List.mem_map.mp hr
      apply ha
      have : a = i := by
        have e1 : p.1 = a := by rw [← hpj]
        have e2 : p.1 = i := by rw [← hpj']
        rw [← e1, e2]
      rw [this]
      exact hi

theorem grid_keys_nodup (era5 ndvi : ℕ → ℕ → FVal) (height width : ℕ)
    (tf : ℕ → ℕ → ℚ × ℚ) (doy : Int) (elev : Option (ℕ → ℕ → ℚ)) :
    ((create_feature_grid era5 ndvi height width tf doy elev).map
      (fun r => (r.row, r.col))).Nodup := by
  have hsub : ((create_feature_grid era5 ndvi height width tf doy elev).map
      (fun r => (r.row, r.col))).Sublist
      (((List.range height).flatMap (fun i =>
        (List.range width).map (fun j =>
          pixelRow era5 ndvi tf doy elev i j))).map (fun r => (r.row, r.col))) :=
    List.Sublist.map _ (List.filter_sublist _)
  apply List.Nodup.sublist hsub
  have heq : ((List.range height).flatMap (fun i =>
      (List.range width).map (fun j =>
        pixelRow era5 ndvi tf doy elev i j))).map (fun r => (r.row, r.col))
      = (List.range height).flatMap (fun i =>
          (List.range width).map (fun j => (i, j))) := by
    rw [List.map_flatMap]
    congr 1
    funext i
    rw [List.map_map]
    rfl
  rw [heq]
  exact pairKeys_nodup width (List.range height) (List.nodup_range _)

theorem mem_uniqueFirst : ∀ (l seen : List Int) (y : Int),
    y ∈ uniqueFirst seen l ↔ y ∈ l ∧ y ∉ seen := by
  intro l
  induction l with
  | nil => intro seen y; simp [uniqueFirst]
  | cons x xs ih =>
    intro seen y
    by_cases hx : x ∈ seen
    · rw [uniqueFirst, if_pos hx, ih]
      constructor
      · rintro ⟨hy, hns⟩
        exact ⟨List.mem_cons_of_mem _ hy, hns⟩
      · rintro ⟨hy, hns⟩
        rcases List.mem_cons.mp hy with rfl | h
        · exact absurd hx hns
        · exact ⟨h, hns⟩
    · rw [uniqueFirst, if_neg hx]
      constructor
      · intro hy
        rcases List.mem_cons.mp hy with rfl | h
        · exact ⟨List.mem_cons_self _ _, hx⟩
        · obtain ⟨h1, h2⟩ := (ih (x :: seen) y).mp h
          exact ⟨List.mem_cons_of_mem _ h1,
            fun hs => h2 (List.mem_cons_of_mem _ hs)⟩
      · rintro ⟨hy, hns⟩
        rcases List.mem_cons.mp hy with rfl | h
        · exact List.mem_cons_self _ _
        · by_cases hyx : y = x
          · subst hyx
            exact List.mem_cons_self _ _
          · refine List.mem_cons_of_mem _ ((ih (x :: seen) y).mpr ⟨h, ?_⟩)
            intro hs
            rcases List.mem_cons.mp hs with h' | h'
            · exact hyx h'
            · exact hns h'

theorem nodup_uniqueFirst : ∀ (l seen : List Int),
    (uniqueFirst seen l).Nodup := by
  intro l
  induction l with
  | nil => intro seen; simp [uniqueFirst]
  | cons x xs ih =>
    intro seen
    by_cases hx : x ∈ seen
    · rw [uniqueFirst, if_pos hx]
      exact ih seen
    · rw [uniqueFirst, if_neg hx]
      refine List.nodup_cons.mpr ⟨?_, ih _⟩
      intro hmem
      exact ((mem_uniqueFirst xs (x :: seen) x).mp hmem).2
        (List.mem_cons_self _ _)

theorem mem_uniqueStations {df : List CubeRow} {s : Int} :
    s ∈ uniqueStations df ↔ ∃ r ∈ df, r.staid = s := by
  rw [uniqueStations, mem_uniqueFirst]
  simp [List.mem_map]

/-! ## C1: drop-on-missing is the training-cube and feature-grid
invariant -/

/-- C1: if the baseline or covariate lookup is missing (NaN) at a
(date, location), no training-cube row carries that (date, location);
and if the upsampled baseline or the covariate raster is NaN at a pixel,
no feature-grid row carries that pixel. -/
theorem c1_drop_on_missing :
    (∀ (getE getN : Int → ℚ → ℚ → FVal) (doyOf : Int → Int)
        (data : List ObsRow) (d : Int) (la lo : ℚ),
        getE d la lo = FVal.nan ∨ getN d la lo = FVal.nan →
        ∀ c ∈ build_training_cube getE getN doyOf data,
          ¬(c.date = d ∧ c.lat = la ∧ c.lon = lo))
    ∧ (∀ (era5 ndvi : ℕ → ℕ → FVal) (height width : ℕ)
        (tf : ℕ → ℕ → ℚ × ℚ) (doy : Int) (elev : Option (ℕ → ℕ → ℚ))
        (i j : ℕ),
        era5 i j = FVal.nan ∨ ndvi i j = FVal.nan →
        ∀ r ∈ create_feature_grid era5 ndvi height width tf doy elev,
          ¬(r.row = i ∧ r.col = j)) := by
  constructor
  · rintro getE getN doyOf data d la lo hmiss c hc ⟨hd, hla, hlo⟩
    obtain ⟨r, _, hrow⟩ := mem_build_training_cube.mp hc
    obtain ⟨e, n, hE, hN, hcd, hclat, hclon, _⟩ := cubeRowOf_some_inv hrow
    have hdd : r.date = d := by rw [← hcd, hd]
    have hlla : r.lat = la := by rw [← hclat, hla]
    have hllo : r.lon = lo := by rw [← hclon, hlo]
    rw [hdd, hlla, hllo] at hE hN
    cases hmiss with
    | inl h => rw [h] at hE; exact FVal.noConfusion hE
    | inr h => rw [h] at hN; exact FVal.noConfusion hN
  · rintro era5 ndvi height width tf doy elev i j hmiss r hr ⟨hi, hj⟩
    obtain ⟨hE, hN, h1, h2⟩ := mem_create_feature_grid_fields hr
    rw [hi, hj] at hE hN
    cases hmiss with
    | inl h => rw [h] at hE; rw [hE] at h1; exact Bool.noConfusion h1
    | inr h => rw [h] at hN; rw [hN] at h2; exact Bool.noConfusion h2

/-- C1 witness: concrete instances of both halves, with an all-NaN
baseline on the training side and a NaN covariate pixel on the
inference side. -/
theorem c1_drop_on_missing_witness :
    (∀ c ∈ build_training_cube (fun _ _ _ => FVal.nan)
        (fun _ _ _ => FVal.num 0) (fun _ => 0) [c10obs],
        ¬(c.date = 5 ∧ c.lat = 2 ∧ c.lon = 3))
    ∧ (∀ r ∈ create_feature_grid (fun _ _ => FVal.num 1)
        (fun _ _ => FVal.nan) 1 1 (fun _ _ => (0, 0)) 7 none,
        ¬(r.row = 0 ∧ r.col = 0)) :=
  ⟨c1_drop_on_missing.1 (fun _ _ _ => FVal.nan) (fun _ _ _ => FVal.num 0)
      (fun _ => 0) _ 5 2 3 (Or.inl rfl),
   c1_drop_on_missing.2 (fun _ _ => FVal.num 1) (fun _ _ => FVal.nan)
      1 1 (fun _ _ => (0, 0)) 7 none 0 0 (Or.inr rfl)⟩

/-! ## C2: spatial split is a leakage-free partition -/

/-- C2: for every permutation of the distinct station ids (hence every
random seed) and every slice point, the spatial split's train and test
station groups are disjoint, their union is exactly the set of station
ids occurring in the data, and a row lands in the train (resp. test)
partition iff its station id is in the train (resp. test) group. -/
theorem c2_spatial_split_partition (df : List CubeRow)
    (shuffled : List Int) (nTest : ℕ)
    (hperm : shuffled.Perm (uniqueStations df)) :
    (∀ s, s ∈ shuffled.drop nTest → s ∉ shuffled.take nTest)
    ∧ (∀ s, (s ∈ shuffled.drop nTest ∨ s ∈ shuffled.take nTest)
        ↔ ∃ r ∈ df, r.staid = s)
    ∧ (∀ r ∈ df,
        (r ∈ (spatial_split df shuffled nTest).1
          ↔ r.staid ∈ shuffled.drop nTest)
        ∧ (r ∈ (spatial_split df shuffled nTest).2
          ↔ r.staid ∈ shuffled.take nTest)) := by
  have hnd : shuffled.Nodup :=
    hperm.nodup_iff.mpr (nodup_uniqueFirst _ [])
  refine ⟨?_, ?_, ?_⟩
  · intro s hdrop htake
    have hnd2 := hnd
    rw [← List.take_append_drop nTest shuffled, List.nodup_append] at hnd2
    exact hnd2.2.2 htake hdrop
  · intro s
    have hmem : s ∈ shuffled ↔ ∃ r ∈ df, r.staid = s := by
      rw [hperm.mem_iff]
      exact mem_uniqueStations
    rw [← hmem]
    conv_rhs => rw [← List.take_append_drop nTest shuffled]
    rw [List.mem_append]
    exact Or.comm
  · intro r hr
    constructor
    · rw [spatial_split]
      simp only [List.mem_filter, decide_eq_true_eq]
      constructor
      · rintro ⟨_, h⟩; exact h
      · intro h; exact ⟨hr, h⟩
    · rw [spatial_split]
      simp only [List.mem_filter, decide_eq_true_eq]
      constructor
      · rintro ⟨_, h⟩; exact h
      · intro h; exact ⟨hr, h⟩

/-- C2 witness: with stations {1,2,3}, shuffle [3,1,2] and one test
station, the row of station 1 is in the train partition and not in the
test partition. -/
theorem c2_spatial_split_partition_witness :
    mkCube 1 ∈ (spatial_split c2df [3, 1, 2] 1).1
      ∧ mkCube 1 ∉ (spatial_split c2df [3, 1, 2] 1).2 := by
  have h := c2_spatial_split_partition c2df [3, 1, 2] 1 (by decide)
  have h1 := (h.2.2 (mkCube 1) (by decide)).1
  have h2 := (h.2.2 (mkCube 1) (by decide)).2
  refine ⟨h1.mpr (by decide), fun hm => ?_⟩
  have := h2.mp hm
  revert this
  decide

/-! ## C3: residual identity and additive reconstruction -/

/-- C3: every training-cube row stores `residual = station temperature -
baseline temperature` exactly; and for every surviving inference pixel,
the reconstructed high-resolution map equals the upsampled baseline at
that pixel plus the model's predicted residual for that pixel. -/
theorem c3_residual_reconstruction :
    (∀ (getE getN : Int → ℚ → ℚ → FVal) (doyOf : Int → Int)
        (data : List ObsRow),
        ∀ c ∈ build_training_cube getE getN doyOf data,
          c.residual = c.station_temp - c.era5_temp)
    ∧ (∀ env : InfEnv, ∀ r ∈ (generate_highres_map env).grid,
        (generate_highres_map env).highres_map r.row r.col
          = r.era5 + FVal.num (predictRow env r)) := by
  constructor
  · intro getE getN doyOf data c hc
    obtain ⟨r, _, hrow⟩ := mem_build_training_cube.mp hc
    obtain ⟨e, n, _, _, _, _, _, _, _, hera, hsta, hres, _⟩ :=
      cubeRowOf_some_inv hrow
    rw [hres, hsta, hera]
  · intro env r hr
    have hgrid : (generate_highres_map env).grid
        = create_feature_grid env.era5up env.ndvi env.height env.width
            env.tf env.doy none := rfl
    rw [hgrid] at hr
    show scatter _ _ r.row r.col = _
    apply scatter_lookup
    · rw [List.map_map]
      have : ((fun e : ℕ × ℕ × FVal => (e.1, e.2.1)) ∘
          (fun q : FeatureRow =>
            (q.row, q.col, q.era5 + FVal.num (predictRow env q))))
          = fun q : FeatureRow => (q.row, q.col) := rfl
      rw [this]
      exact grid_keys_nodup _ _ _ _ _ _ _
    · exact List.mem_map.mpr ⟨r, hr, rfl⟩

/-- C3 witness: concrete instances of both halves, with a constant
baseline of 15 °C on a one-row observation table and a 1x1 valid
inference grid with a constant predicted residual of 2. -/
theorem c3_residual_reconstruction_witness :
    (∀ c ∈ build_training_cube (fun _ _ _ => FVal.num 15)
        (fun _ _ _ => FVal.num (3 / 10)) (fun _ => 0) [c10obs],
        c.residual = c.station_temp - c.era5_temp)
    ∧ (∀ r ∈ (generate_highres_map
        { height := 1, width := 1, era5up := fun _ _ => FVal.num 15,
          ndvi := fun _ _ => FVal.num (3 / 10), tf := fun _ _ => (0, 0),
          doy := 7, pred := fun _ _ _ _ _ _ => 2 }).grid,
        (generate_highres_map
          { height := 1, width := 1, era5up := fun _ _ => FVal.num 15,
            ndvi := fun _ _ => FVal.num (3 / 10), tf := fun _ _ => (0, 0),
            doy := 7, pred := fun _ _ _ _ _ _ => 2 }).highres_map r.row r.col
          = r.era5 + FVal.num (predictRow
              { height := 1, width := 1, era5up := fun _ _ => FVal.num 15,
                ndvi := fun _ _ => FVal.num (3 / 10), tf := fun _ _ => (0, 0),
                doy := 7, pred := fun _ _ _ _ _ _ => 2 } r)) :=
  ⟨c3_residual_reconstruction.1 (fun _ _ _ => FVal.num 15)
      (fun _ _ _ => FVal.num (3 / 10)) (fun _ => 0) _,
   c3_residual_reconstruction.2 _⟩

/-! ## C4: the feature-ordering contract is not enforced (code bug) -/

/-- C4 evidence (code bug): loading an artifact whose stored
feature-name list has the wrong length and order is accepted without any
validation, and a subsequent `predict` silently overwrites the stored
list with the hardcoded ordering and produces predictions instead of
raising an explicit contract error. -/
theorem c4_contract_not_enforced :
    (RLModel.load badArtifact).feature_names = some ["WRONG"]
      ∧ ((RLModel.load badArtifact).predict stdFrame).2 = some [(0 : ℚ)]
      ∧ ((RLModel.load badArtifact).predict stdFrame).1.feature_names
          = some fixedFeatureNames :=
  ⟨rfl, rfl, rfl⟩

/-! ## C5: accessors answer missing queries with the NaN sentinel -/

/-- C5: each accessor either returns the NaN missing sentinel or a value
derived from an actually-read datum — never zero or any other
substitute.  For ERA5 a non-NaN result exhibits an open dataset and a
non-NaN Kelvin reading converted by subtracting 273.15; for NDVI it
exhibits a selected file, an open raster, an in-bounds pixel whose byte
value is not the 255 NoData code, scaled by v/254*2-1. -/
theorem c5_accessors_missing_sentinel :
    (∀ (env : Era5Env) (yearOf : Int → Int) (date : Int) (lat lon : ℚ)
        (varName : String),
        get_era5_value env yearOf date lat lon varName = FVal.nan
        ∨ ∃ ds k, env.files (yearOf date) varName = Era5File.ok ds
            ∧ ds lat lon date = some (FVal.num k)
            ∧ get_era5_value env yearOf date lat lon varName
                = FVal.num (k - 5463 / 20))
    ∧ (∀ (env : NdviEnv) (date : Int) (lat lon : ℚ),
        get_ndvi_value env date lat lon = FVal.nan
        ∨ ∃ f src row col v,
            env.files.find?
                (fun f => decide (f.startD ≤ date ∧ date < f.endD)) = some f
            ∧ f.handle = some src
            ∧ src.locate lon lat = some (row, col)
            ∧ (0 ≤ row ∧ row < src.height ∧ 0 ≤ col ∧ col < src.width)
            ∧ src.read row col = ReadRes.val v
            ∧ v ≠ 255
            ∧ get_ndvi_value env date lat lon
                = FVal.num (v / 254 * 2 - 1)) := by
  constructor
  · intro env yearOf date lat lon varName
    unfold get_era5_value
    split
    · exact Or.inl rfl
    · exact Or.inl rfl
    · next ds heq =>
      split
      · exact Or.inl rfl
      · next k hk =>
        cases k with
        | nan => exact Or.inl rfl
        | num q => exact Or.inr ⟨ds, q, heq, hk, rfl⟩
  · intro env date lat lon
    unfold get_ndvi_value
    split
    · exact Or.inl rfl
    · next f hfind =>
      split
      · exact Or.inl rfl
      · next src hh =>
        split
        · exact Or.inl rfl
        · next row col hloc =>
          split
          · next hb =>
            split
            · exact Or.inl rfl
            · exact Or.inl rfl
            · next v hread =>
              split
              · next hv => exact Or.inl rfl
              · next hv =>
                exact Or.inr ⟨f, src, row, col, v, hfind, hh, hloc, hb,
                  hread, hv, rfl⟩
          · next hb => exact Or.inl rfl

/-! ## C6: the station parser does not de-duplicate by id -/

/-- C6 counterexample: a catalogue whose two well-formed data rows share
station id 1 yields two `StationRec`s with that id, so the parser output
is not de-duplicated by id ("at most one record per id" fails). -/
theorem c6_dedup_counterexample :
    ¬ ((parse_stations c6lines).filter
        (fun r => decide (r.staid = 1))).length ≤ 1 := by
  decide

/-- C6 (amended): the station metadata parser keeps one record per
well-formed catalogue data row, in order; duplicate station ids are not
de-duplicated — the output is exactly the per-line parses of the lines
after the header. -/
theorem c6_parser_keeps_duplicates (lines : List String) :
    parse_stations lines
      = (lines.drop (dataStart lines)).filterMap parseStationLine := by
  unfold parse_stations
  rw [foldl_appendStep]
  simp

/-! ## C7: cleaning idempotence holds except at the sentinel preimage -/

/-- C7 counterexample: a raw value of -99990 tenths survives cleaning as
-9999 °C, and re-applying the missing-value filter then drops it, so
re-applying the filters to cleaned data is not always a no-op. -/
theorem c7_idempotence_counterexample :
    filter_missing (filter_quality (clean_temperature_data [c7row]))
      ≠ clean_temperature_data [c7row] := by
  have hclean : clean_temperature_data [c7row]
      = [{ staid := 1, date := "20200101", tx := (-99990 : ℚ) / 10,
           q_tx := 0 }] := rfl
  have h10 : ((-99990 : ℚ) / 10) = -9999 := by norm_num
  rw [hclean]
  simp [filter_missing, filter_quality, h10]

/-- C7 (amended): for every observation table none of whose raw values
is exactly -99990 (equivalently, no cleaned value is exactly the missing
sentinel -9999), re-applying the quality filter and the missing-value
filter to the cleaned table is a no-op. -/
theorem c7_refilter_noop (df : List RawObs)
    (h : ∀ r ∈ df, r.tx ≠ -99990) :
    filter_missing (filter_quality (clean_temperature_data df))
      = clean_temperature_data df := by
  cases df with
  | nil => rfl
  | cons x xs =>
    unfold clean_temperature_data
    rw [if_neg (by simp)]
    have key : ∀ a ∈ (filter_missing (filter_quality (x :: xs))).map
        (fun r => { r with tx := r.tx / 10 }), a.q_tx = 0 ∧ a.tx ≠ -9999 := by
      intro a ha
      obtain ⟨r, hr, rfl⟩ := List.mem_map.mp ha
      obtain ⟨hr2, _hm⟩ := List.mem_filter.mp hr
      obtain ⟨hrdf, hq⟩ := List.mem_filter.mp hr2
      refine ⟨by simpa using hq, ?_⟩
      intro hcontra
      apply h r hrdf
      have h9 : r.tx = -9999 * 10 :=
        (div_eq_iff (by norm_num : (10 : ℚ) ≠ 0)).mp hcontra
      rw [h9]
      norm_num
    have h1 : filter_quality ((filter_missing (filter_quality (x :: xs))).map
        (fun r => { r with tx := r.tx / 10 }))
        = (filter_missing (filter_quality (x :: xs))).map
          (fun r => { r with tx := r.tx / 10 }) := by
      apply List.filter_eq_self.mpr
      intro a ha
      simpa using (key a ha).1
    rw [h1]
    apply List.filter_eq_self.mpr
    intro a ha
    simpa using (key a ha).2

/-- C7 witness: a concrete clean one-row table on which re-applying the
filters is a no-op. -/
theorem c7_refilter_noop_witness :
    filter_missing (filter_quality (clean_temperature_data c7df))
      = clean_temperature_data c7df :=
  c7_refilter_noop c7df (by decide)

/-! ## C8: dms_to_decimal computes the sexagesimal formula -/

/-- C8: `dms_to_decimal` computes `sign * (deg + min/60 + sec/3600)` for
every well-formed sign-prefixed colon-delimited input (first conjunct:
the stripped input starts with a sign character, splits on ':' into at
least three parseable parts, and the result is the formula with sign +1
for '+' and -1 otherwise); and the three quoted evaluations hold:
"+56:52:00" gives 853/15 which is within 0.0001 of 56.8667,
"-12:30:00" gives -12.5, and "+00:00:00" gives 0. -/
theorem c8_dms_formula :
    (∀ (s : String) (ch : Char) (rest ds ms ss : List Char)
        (tail : List (List Char)) (dv mv sv : ℚ),
        (pyStrip s).data = ch :: rest →
        splitOnChar ':' rest = ds :: ms :: ss :: tail →
        parseFloatQ ds = some dv → parseFloatQ ms = some mv →
        parseFloatQ ss = some sv →
        dms_to_decimal s
          = some ((if ch = '+' then (1 : ℚ) else -1)
              * (dv + mv / 60 + sv / 3600)))
    ∧ dms_to_decimal "+56:52:00" = some (853 / 15)
    ∧ (∀ q : ℚ, dms_to_decimal "+56:52:00" = some q →
        |q - 568667 / 10000| < 1 / 10000)
    ∧ dms_to_decimal "-12:30:00" = some (-(25 / 2))
    ∧ dms_to_decimal "+00:00:00" = some 0 := by
  have h56 : dms_to_decimal "+56:52:00" = some (853 / 15) := by
    have h : dms_to_decimal "+56:52:00"
        = some ((if '+' = '+' then (1 : ℚ) else -1)
            * ((digitsToNat ['5', '6'] : ℚ) + (digitsToNat ['5', '2'] : ℚ) / 60
               + (digitsToNat ['0', '0'] : ℚ) / 3600)) := rfl
    have d1 : digitsToNat ['5', '6'] = 56 := rfl
    have d2 : digitsToNat ['5', '2'] = 52 := rfl
    have d3 : digitsToNat ['0', '0'] = 0 := rfl
    rw [h, d1, d2, d3]
    norm_num
  refine ⟨?_, h56, ?_, ?_, ?_⟩
  · intro s ch rest ds ms ss tail dv mv sv h1 h2 h3 h4 h5
    unfold dms_to_decimal
    rw [h1]
    show dmsParts ch (splitOnChar ':' rest) = _
    rw [h2]
    show (match parseFloatQ ds, parseFloatQ ms, parseFloatQ ss with
      | some dv, some mv, some sv =>
        some ((if ch = '+' then (1 : ℚ) else -1) * (dv + mv / 60 + sv / 3600))
      | _, _, _ => none) = _
    rw [h3, h4, h5]
  · intro q hq
    rw [h56] at hq
    have hq2 : q = 853 / 15 := (Option.some.injEq _ _).mp hq.symm
    rw [hq2, abs_lt]
    constructor <;> norm_num
  · have h : dms_to_decimal "-12:30:00"
        = some ((if '-' = '+' then (1 : ℚ) else -1)
            * ((digitsToNat ['1', '2'] : ℚ) + (digitsToNat ['3', '0'] : ℚ) / 60
               + (digitsToNat ['0', '0'] : ℚ) / 3600)) := rfl
    have d1 : digitsToNat ['1', '2'] = 12 := rfl
    have d2 : digitsToNat ['3', '0'] = 30 := rfl
    have d3 : digitsToNat ['0', '0'] = 0 := rfl
    rw [h, d1, d2, d3, if_neg (by decide : ¬ ('-' = '+'))]
    norm_num
  · have h : dms_to_decimal "+00:00:00"
        = some ((if '+' = '+' then (1 : ℚ) else -1)
            * ((digitsToNat ['0', '0'] : ℚ) + (digitsToNat ['0', '0'] : ℚ) / 60
               + (digitsToNat ['0', '0'] : ℚ) / 3600)) := rfl
    have d3 : digitsToNat ['0', '0'] = 0 := rfl
    rw [h, d3]
    norm_num

/-- C8 witness: the general formula applied at the concrete well-formed
input "+10:30:00". -/
theorem c8_dms_formula_witness :
    dms_to_decimal "+10:30:00"
      = some ((if '+' = '+' then (1 : ℚ) else -1)
          * ((digitsToNat ['1', '0'] : ℚ) + (digitsToNat ['3', '0'] : ℚ) / 60
             + (digitsToNat ['0', '0'] : ℚ) / 3600)) :=
  c8_dms_formula.1 "+10:30:00" '+' "10:30:00".data ['1', '0'] ['3', '0']
    ['0', '0'] [] _ _ _ rfl rfl rfl rfl rfl

/-! ## C9: a failed date never aborts the batch -/

/-- C9: the multi-date batch loop attempts every date in the requested
range, in order, recording a per-date outcome; a failed date (gen
returns an error) is skipped and never prevents the remaining dates from
being processed. -/
theorem c9_batch_processes_all_dates (gen : Int → Except String Unit)
    (s e : Int) :
    generate_maps_for_period gen s e = (dateRange s e).map (attemptDate gen)
      ∧ (generate_maps_for_period gen s e).map Prod.fst = dateRange s e := by
  have h : generate_maps_for_period gen s e
      = (dateRange s e).map (attemptDate gen) := by
    unfold generate_maps_for_period
    rw [foldl_append_singleton]
    simp
  refine ⟨h, ?_⟩
  rw [h, List.map_map]
  have : Prod.fst ∘ attemptDate gen = id := rfl
  rw [this, List.map_id]

/-! ## C10: the inference-time ELEVATION feature is always zero -/

/-- C10: `generate_highres_map` never passes an elevation array to
`create_feature_grid`, so the ELEVATION feature of every feature-grid
pixel is 0 at inference time — while every training-cube row carries the
true elevation of the observation it came from. -/
theorem c10_inference_elevation_zero :
    (∀ env : InfEnv, ∀ r ∈ (generate_highres_map env).grid,
        r.elevation = 0)
    ∧ (∀ (getE getN : Int → ℚ → ℚ → FVal) (doyOf : Int → Int)
        (data : List ObsRow),
        ∀ c ∈ build_training_cube getE getN doyOf data,
          ∃ r ∈ data, c.elevation = r.elevation) := by
  constructor
  · intro env r hr
    have hgrid : (generate_highres_map env).grid
        = create_feature_grid env.era5up env.ndvi env.height env.width
            env.tf env.doy none := rfl
    rw [hgrid] at hr
    obtain ⟨⟨i, _, j, _, hr2⟩, _, _⟩ := mem_create_feature_grid.mp hr
    rw [hr2]
    rfl
  · intro getE getN doyOf data c hc
    obtain ⟨r, hrdata, hrow⟩ := mem_build_training_cube.mp hc
    obtain ⟨e, n, _, _, _, _, _, helev, _⟩ := cubeRowOf_some_inv hrow
    exact ⟨r, hrdata, helev⟩

/-- C10 witness: a 1x1 inference grid with valid rasters has its single
feature row at elevation 0; a one-row training cube keeps the station
elevation 10. -/
theorem c10_inference_elevation_zero_witness :
    (∀ r ∈ (generate_highres_map
        { height := 1, width := 1, era5up := fun _ _ => FVal.num 15,
          ndvi := fun _ _ => FVal.num 0, tf := fun _ _ => (0, 0),
          doy := 7, pred := fun _ _ _ _ _ _ => 2 }).grid,
        r.elevation = 0)
    ∧ (∀ c ∈ build_training_cube (fun _ _ _ => FVal.num 15)
        (fun _ _ _ => FVal.num 0) (fun _ => 0) [c10obs],
        ∃ r ∈ [c10obs], c.elevation = r.elevation) :=
  ⟨c10_inference_elevation_zero.1 _,
   c10_inference_elevation_zero.2 (fun _ _ _ => FVal.num 15)
      (fun _ _ _ => FVal.num 0) (fun _ => 0) _⟩
